import Mathlib

/-!
Shallow embedding of the erc8040 Python SDK (modules `esg.py`, `compliance.py`,
`iso20022.py`) and verification of its specification.

Modelling conventions:
* Python `float` scores and weights are modelled as `ℚ`; every numeric constant
  appearing in the code (thresholds 20, 30, ..., 90, bounds 0/100, factor 500)
  is exactly representable, so rational arithmetic agrees with the intended
  real-number semantics of the spec.
* `datetime` values are modelled as integers (a point on a discrete timeline);
  only their total order matters to the code.
* pydantic field validation (`Field(ge=0.0, le=100.0)`) makes the Python
  constructor fallible, hence constructors that validate return `Option`;
  `none` models a raised `ValidationError` (or `ZeroDivisionError` for
  `ESGScoring.__init__` with zero weight sum).
* `ComplianceResult.checked_at` (a wall-clock default) carries no information
  used by any operation and is omitted from the embedded record.
-/

namespace Erc8040

/-- ESG Rating levels from D (lowest) to AAA (highest), in the declaration
order of the Python `ESGRating` enum. -/
inductive ESGRating where
  | D
  | C
  | CC
  | CCC
  | B
  | BB
  | BBB
  | A
  | AA
  | AAA
deriving DecidableEq

/-- The `.value` string of each `ESGRating` member. -/
def ESGRating.value : ESGRating → String
  | .D => "D"
  | .C => "C"
  | .CC => "CC"
  | .CCC => "CCC"
  | .B => "B"
  | .BB => "BB"
  | .BBB => "BBB"
  | .A => "A"
  | .AA => "AA"
  | .AAA => "AAA"

/-- `list(ESGRating)`: the members in declaration order. -/
def ratingOrder : List ESGRating :=
  [.D, .C, .CC, .CCC, .B, .BB, .BBB, .A, .AA, .AAA]

/-- `list(ESGRating).index(r)` as used by `validate_esg`. -/
def ESGRating.sourceIndex (r : ESGRating) : Nat :=
  ratingOrder.indexOf r

/-- The fixed ordinal order named by the spec: D=0, C=1, CC=2, CCC=3, B=4,
BB=5, BBB=6, A=7, AA=8, AAA=9 (spec 4.1, ascending). -/
def ESGRating.ordinal : ESGRating → Nat
  | .D => 0
  | .C => 1
  | .CC => 2
  | .CCC => 3
  | .B => 4
  | .BB => 5
  | .BBB => 6
  | .A => 7
  | .AA => 8
  | .AAA => 9

/-- `ESGRating(s)`: enum lookup by value string; `none` models the raised
`ValueError` when no member has that value. -/
def ESGRating.fromLabel (s : String) : Option ESGRating :=
  if s = "D" then some .D
  else if s = "C" then some .C
  else if s = "CC" then some .CC
  else if s = "CCC" then some .CCC
  else if s = "B" then some .B
  else if s = "BB" then some .BB
  else if s = "BBB" then some .BBB
  else if s = "A" then some .A
  else if s = "AA" then some .AA
  else if s = "AAA" then some .AAA
  else none

/-- `ESGRating.from_score`: convert a total ESG score to a rating, by the
highest-first chain of inclusive lower bounds in the source. -/
def ESGRating.fromScore (score : ℚ) : ESGRating :=
  if score ≥ 90 then .AAA
  else if score ≥ 85 then .AA
  else if score ≥ 80 then .A
  else if score ≥ 70 then .BBB
  else if score ≥ 60 then .BB
  else if score ≥ 50 then .B
  else if score ≥ 40 then .CCC
  else if score ≥ 30 then .CC
  else if score ≥ 20 then .C
  else .D

/-- `ESGRating.is_investment_grade`. -/
def ESGRating.isInvestmentGrade (r : ESGRating) : Bool :=
  r = ESGRating.AAA ∨ r = ESGRating.AA ∨ r = ESGRating.A ∨ r = ESGRating.BBB

/-- `ESGScore`: ESG score breakdown (pydantic model). -/
structure ESGScore where
  environmental : ℚ
  social : ℚ
  governance : ℚ
  total : ℚ
  rating : ESGRating
deriving DecidableEq

/-- The pydantic range constraint `Field(ge=0.0, le=100.0)`. -/
def fieldInRange (x : ℚ) : Bool :=
  0 ≤ x ∧ x ≤ 100

/-- The pydantic constructor of `ESGScore`: validates each numeric field
against `ge=0.0, le=100.0` and otherwise stores the given field values
unchanged (the `rating` field is not cross-checked against `total`). -/
def ESGScore.mk? (environmental social governance total : ℚ)
    (rating : ESGRating) : Option ESGScore :=
  if fieldInRange environmental && fieldInRange social &&
      fieldInRange governance && fieldInRange total then
    some ⟨environmental, social, governance, total, rating⟩
  else
    none

/-- `ESGScore.create`: total is the arithmetic mean of the three components,
rating is derived from the total; fields then pass pydantic validation. -/
def ESGScore.create (environmental social governance : ℚ) : Option ESGScore :=
  let total := (environmental + social + governance) / 3
  let rating := ESGRating.fromScore total
  ESGScore.mk? environmental social governance total rating

/-- `ESGScoring`: scoring calculator state (the three normalized weights). -/
structure ESGScoring where
  environmental_weight : ℚ
  social_weight : ℚ
  governance_weight : ℚ
deriving DecidableEq

/-- `ESGScoring.__init__`: normalizes the weights by their sum; `none` models
the `ZeroDivisionError` raised when the sum is zero (no other validation is
performed by the source). -/
def ESGScoring.init? (environmental_weight social_weight governance_weight : ℚ) :
    Option ESGScoring :=
  let total := environmental_weight + social_weight + governance_weight
  if total = 0 then
    none
  else
    some ⟨environmental_weight / total, social_weight / total,
      governance_weight / total⟩

/-- `ESGScoring.calculate`: weight-dot-product total, derived rating, then the
pydantic `ESGScore` constructor (which validates ranges). -/
def ESGScoring.calculate (w : ESGScoring) (environmental social governance : ℚ) :
    Option ESGScore :=
  let weighted_total := environmental * w.environmental_weight +
    social * w.social_weight + governance * w.governance_weight
  ESGScore.mk? environmental social governance weighted_total
    (ESGRating.fromScore weighted_total)

/-- Regulatory frameworks supported by ERC-8040. -/
inductive RegulatoryFramework where
  | EU_SFDR
  | EU_TAXONOMY
  | SEC_CLIMATE
  | MIFID_II
  | BASEL
deriving DecidableEq

/-- Jurisdiction where compliance applies. -/
inductive Jurisdiction where
  | EU
  | US
  | UK
  | BRAZIL
  | GLOBAL
deriving DecidableEq

/-- Severity level of a compliance rule. -/
inductive Severity where
  | LOW
  | MEDIUM
  | HIGH
  | CRITICAL
deriving DecidableEq

/-- Status of a compliance check. -/
inductive ComplianceStatus where
  | COMPLIANT
  | PARTIALLY_COMPLIANT
  | NON_COMPLIANT
  | PENDING
  | NOT_APPLICABLE
deriving DecidableEq

/-- Category of compliance rule. -/
inductive RuleCategory where
  | KYC_AML
  | ESG_DISCLOSURE
  | INVESTMENT_RESTRICTION
  | REPORTING
  | RISK_MANAGEMENT
deriving DecidableEq

/-- `ComplianceRule`: a compliance rule that must be satisfied. Timestamps
are integers; `effective_until = none` and `required_esg_rating = none`
model the Python `None` defaults. -/
structure ComplianceRule where
  id : String
  framework : RegulatoryFramework
  jurisdiction : Jurisdiction
  category : RuleCategory
  severity : Severity
  description : String
  effective_from : Int
  effective_until : Option Int := none
  required_esg_rating : Option String := none
deriving DecidableEq

/-- `ComplianceRule.is_effective`: `now` stands for `datetime.now()`, used
when the optional `at_time` argument is absent (`none`). -/
def ComplianceRule.isEffective (r : ComplianceRule) (now : Int)
    (at_time : Option Int) : Bool :=
  let check_time := at_time.getD now
  if check_time < r.effective_from then
    false
  else
    match r.effective_until with
    | some u => if check_time > u then false else true
    | none => true

/-- `ComplianceRule.applies_to`: rule jurisdiction equals the queried one, or
is the GLOBAL wildcard. -/
def ComplianceRule.appliesTo (r : ComplianceRule) (jurisdiction : Jurisdiction) :
    Bool :=
  r.jurisdiction = jurisdiction ∨ r.jurisdiction = Jurisdiction.GLOBAL

/-- `ComplianceResult` (the wall-clock `checked_at` field is omitted). -/
structure ComplianceResult where
  rule_id : String
  status : ComplianceStatus
  message : String
deriving DecidableEq

/-- `ComplianceValidator` state: the ordered rule list. -/
structure ComplianceValidator where
  rules : List ComplianceRule
deriving DecidableEq

/-- `ComplianceValidator.add_rule`. -/
def ComplianceValidator.addRule (v : ComplianceValidator) (rule : ComplianceRule) :
    ComplianceValidator :=
  ⟨v.rules ++ [rule]⟩

/-- `ComplianceValidator.add_rules`. -/
def ComplianceValidator.addRules (v : ComplianceValidator)
    (rules : List ComplianceRule) : ComplianceValidator :=
  ⟨v.rules ++ rules⟩

/-- The body of the `for rule in self.rules` loop of `validate_esg`: the
result appended for one rule, with the branches in source order. -/
def evalRule (esg_score : ESGScore) (jurisdiction : Jurisdiction)
    (framework : RegulatoryFramework) (category : RuleCategory)
    (now check_time : Int) (rule : ComplianceRule) : ComplianceResult :=
  if rule.isEffective now (some check_time) = false then
    ⟨rule.id, ComplianceStatus.NOT_APPLICABLE, "Rule not currently effective"⟩
  else if rule.appliesTo jurisdiction = false ∨ rule.framework ≠ framework ∨
      rule.category ≠ category then
    ⟨rule.id, ComplianceStatus.NOT_APPLICABLE,
      "Rule not applicable for given filters"⟩
  else
    match rule.required_esg_rating with
    | none =>
      ⟨rule.id, ComplianceStatus.NOT_APPLICABLE, "No ESG rating requirement"⟩
    | some req =>
      match ESGRating.fromLabel req with
      | none =>
        ⟨rule.id, ComplianceStatus.NON_COMPLIANT, "Invalid required ESG rating"⟩
      | some required_rating =>
        if esg_score.rating.sourceIndex ≥ required_rating.sourceIndex then
          ⟨rule.id, ComplianceStatus.COMPLIANT,
            "ESG rating " ++ esg_score.rating.value ++ " meets requirement"⟩
        else
          ⟨rule.id, ComplianceStatus.NON_COMPLIANT,
            "ESG rating " ++ esg_score.rating.value ++
              " does not meet requirement of " ++ req⟩

/-- `ComplianceValidator.validate_esg`: one result per rule, in rule order;
`now` stands for `datetime.now()`, used when `at_time` is absent. -/
def ComplianceValidator.validateEsg (v : ComplianceValidator)
    (esg_score : ESGScore) (jurisdiction : Jurisdiction)
    (framework : RegulatoryFramework) (category : RuleCategory)
    (now : Int) (at_time : Option Int) : List ComplianceResult :=
  let check_time := at_time.getD now
  v.rules.map (evalRule esg_score jurisdiction framework category now check_time)

/-- One iteration of the `overall_status` loop: update the four booleans
`has_non_compliant`, `has_partially_compliant`, `has_compliant`,
`has_pending` (in that tuple order) from one result, with the `elif` chain
of the source. -/
def overallStatusStep (acc : Bool × Bool × Bool × Bool) (r : ComplianceResult) :
    Bool × Bool × Bool × Bool :=
  if r.status = ComplianceStatus.NON_COMPLIANT then
    (true, acc.2.1, acc.2.2.1, acc.2.2.2)
  else if r.status = ComplianceStatus.PARTIALLY_COMPLIANT then
    (acc.1, true, acc.2.2.1, acc.2.2.2)
  else if r.status = ComplianceStatus.COMPLIANT then
    (acc.1, acc.2.1, true, acc.2.2.2)
  else if r.status = ComplianceStatus.PENDING then
    (acc.1, acc.2.1, acc.2.2.1, true)
  else
    acc

/-- The flag-accumulating loop of `overall_status`, all flags starting
false. -/
def overallStatusFlags (results : List ComplianceResult) :
    Bool × Bool × Bool × Bool :=
  results.foldl overallStatusStep (false, false, false, false)

/-- `ComplianceValidator.overall_status`: reduce results to one status by
the fixed priority chain. -/
def ComplianceValidator.overallStatus (results : List ComplianceResult) :
    ComplianceStatus :=
  let flags := overallStatusFlags results
  if flags.1 then ComplianceStatus.NON_COMPLIANT
  else if flags.2.2.2 then ComplianceStatus.PENDING
  else if flags.2.1 then ComplianceStatus.PARTIALLY_COMPLIANT
  else if flags.2.2.1 then ComplianceStatus.COMPLIANT
  else ComplianceStatus.NOT_APPLICABLE

/-- `FinancialInstrument`: identification data for ISO 20022 messaging. -/
structure FinancialInstrument where
  isin : String
  lei : String
  name : String
deriving DecidableEq

/-- `ESGClassification`: ESG classification for ISO 20022 messaging. -/
structure ESGClassification where
  taxonomy_alignment : ℚ
  sfdr_article : Int
  erc8040_rating : String
  carbon_intensity : Option ℚ := none
deriving DecidableEq

namespace ISO20022Bridge

/-- `ISO20022Bridge.map_sfdr_article`. -/
def mapSfdrArticle (rating : ESGRating) : Int :=
  if rating = ESGRating.AAA ∨ rating = ESGRating.AA ∨ rating = ESGRating.A then
    9
  else if rating = ESGRating.BBB ∨ rating = ESGRating.BB then
    8
  else
    6

/-- `ISO20022Bridge.calculate_taxonomy_alignment`. -/
def calculateTaxonomyAlignment (score : ESGScore) : ℚ :=
  let env := score.environmental
  if env ≥ 80 then
    min env 100
  else if env ≥ 60 then
    (env - 60) * 2
  else
    0

/-- `ISO20022Bridge._estimate_carbon_intensity`. -/
def estimateCarbonIntensity (score : ESGScore) : ℚ :=
  let max_intensity : ℚ := 500
  max_intensity * (1 - score.environmental / 100)

/-- `ISO20022Bridge.esg_to_iso`. -/
def esgToIso (score : ESGScore) : ESGClassification :=
  { taxonomy_alignment := calculateTaxonomyAlignment score
    sfdr_article := mapSfdrArticle score.rating
    erc8040_rating := score.rating.value
    carbon_intensity := some (estimateCarbonIntensity score) }

/-- `ISO20022Bridge.create_setr_message`: the `xml_parts` list joined by
newlines, interpolating the instrument and classification fields as raw
text. -/
def createSetrMessage (instrument : FinancialInstrument)
    (esg : ESGClassification) : String :=
  let xml_parts : List String :=
    ["<?xml version=\"1.0\" encoding=\"UTF-8\"?>",
     "<Document xmlns=\"urn:iso:std:iso:20022:tech:xsd:setr.010.001.04\">",
     "  <SctiesTradConf>",
     "    <FinInstrmId>",
     "      <ISIN>" ++ instrument.isin ++ "</ISIN>",
     "      <LEI>" ++ instrument.lei ++ "</LEI>",
     "      <Nm>" ++ instrument.name ++ "</Nm>",
     "    </FinInstrmId>",
     "    <ESGClssfctn>",
     "      <TaxnmyAlgnmt>" ++ toString esg.taxonomy_alignment ++
       "</TaxnmyAlgnmt>",
     "      <SFDRArtcl>" ++ toString esg.sfdr_article ++ "</SFDRArtcl>",
     "      <ERC8040Rtg>" ++ esg.erc8040_rating ++ "</ERC8040Rtg>",
     "    </ESGClssfctn>",
     "  </SctiesTradConf>",
     "</Document>"]
  String.intercalate ("\n") xml_parts

end ISO20022Bridge

/-!
Claim-side definitions: statements of the specification written from the
spec's own words, to be compared with the source-translated definitions.
-/

/-- Rule effectiveness exactly as the spec words it: true iff
`effective_from <= at_time` and (`effective_until` is absent or
`at_time <= effective_until`). -/
def specEffective (rule : ComplianceRule) (t : Int) : Bool :=
  decide (rule.effective_from ≤ t) &&
    (match rule.effective_until with
     | none => true
     | some u => decide (t ≤ u))

/-- Per-rule classification exactly as claim C1 words it: not-effective,
filter failure, missing requirement, unparseable requirement, then ordinal
comparison in the fixed order D=0 … AAA=9. -/
def specClassifyRule (esg_score : ESGScore) (jurisdiction : Jurisdiction)
    (framework : RegulatoryFramework) (category : RuleCategory) (t : Int)
    (rule : ComplianceRule) : ComplianceResult :=
  if specEffective rule t = false then
    ⟨rule.id, ComplianceStatus.NOT_APPLICABLE, "Rule not currently effective"⟩
  else if ¬ (rule.jurisdiction = jurisdiction ∨
      rule.jurisdiction = Jurisdiction.GLOBAL) ∨
      rule.framework ≠ framework ∨ rule.category ≠ category then
    ⟨rule.id, ComplianceStatus.NOT_APPLICABLE,
      "Rule not applicable for given filters"⟩
  else
    match rule.required_esg_rating with
    | none =>
      ⟨rule.id, ComplianceStatus.NOT_APPLICABLE, "No ESG rating requirement"⟩
    | some req =>
      match ESGRating.fromLabel req with
      | none =>
        ⟨rule.id, ComplianceStatus.NON_COMPLIANT, "Invalid required ESG rating"⟩
      | some required_rating =>
        if required_rating.ordinal ≤ esg_score.rating.ordinal then
          ⟨rule.id, ComplianceStatus.COMPLIANT,
            "ESG rating " ++ esg_score.rating.value ++ " meets requirement"⟩
        else
          ⟨rule.id, ComplianceStatus.NON_COMPLIANT,
            "ESG rating " ++ esg_score.rating.value ++
              " does not meet requirement of " ++ req⟩

/-- Overall-status reduction exactly as claim C2 words it: priority
non_compliant > pending > partially_compliant > compliant > not_applicable,
each condition an existential over the list. -/
def specOverallStatus (results : List ComplianceResult) : ComplianceStatus :=
  if ∃ r ∈ results, r.status = ComplianceStatus.NON_COMPLIANT then
    ComplianceStatus.NON_COMPLIANT
  else if ∃ r ∈ results, r.status = ComplianceStatus.PENDING then
    ComplianceStatus.PENDING
  else if ∃ r ∈ results, r.status = ComplianceStatus.PARTIALLY_COMPLIANT then
    ComplianceStatus.PARTIALLY_COMPLIANT
  else if ∃ r ∈ results, r.status = ComplianceStatus.COMPLIANT then
    ComplianceStatus.COMPLIANT
  else
    ComplianceStatus.NOT_APPLICABLE

/-!
Helper lemmas shared by the claim theorems.
-/

/-- The source ordinal (`list(ESGRating).index`) agrees with the spec's
fixed ordinal table D=0 … AAA=9. -/
theorem sourceIndex_eq_ordinal (r : ESGRating) : r.sourceIndex = r.ordinal := by
  cases r <;> rfl

set_option maxHeartbeats 2000000 in
/-- C3: `ESGRating.from_score` is total over ℚ and returns exactly the rating
of the highest inclusive lower bound at or below the score: ≥90→AAA, ≥85→AA,
≥80→A, ≥70→BBB, ≥60→BB, ≥50→B, ≥40→CCC, ≥30→CC, ≥20→C, else D; in
particular `from_score 90 = AAA`, `from_score 75 = BBB`,
`from_score 45 = CCC`. -/
theorem from_score_thresholds :
    (∀ q : ℚ,
      (90 ≤ q → ESGRating.fromScore q = ESGRating.AAA) ∧
      (85 ≤ q → q < 90 → ESGRating.fromScore q = ESGRating.AA) ∧
      (80 ≤ q → q < 85 → ESGRating.fromScore q = ESGRating.A) ∧
      (70 ≤ q → q < 80 → ESGRating.fromScore q = ESGRating.BBB) ∧
      (60 ≤ q → q < 70 → ESGRating.fromScore q = ESGRating.BB) ∧
      (50 ≤ q → q < 60 → ESGRating.fromScore q = ESGRating.B) ∧
      (40 ≤ q → q < 50 → ESGRating.fromScore q = ESGRating.CCC) ∧
      (30 ≤ q → q < 40 → ESGRating.fromScore q = ESGRating.CC) ∧
      (20 ≤ q → q < 30 → ESGRating.fromScore q = ESGRating.C) ∧
      (q < 20 → ESGRating.fromScore q = ESGRating.D)) ∧
    ESGRating.fromScore 90 = ESGRating.AAA ∧
    ESGRating.fromScore 75 = ESGRating.BBB ∧
    ESGRating.fromScore 45 = ESGRating.CCC := by
  refine ⟨fun q => ?_, by norm_num [ESGRating.fromScore],
    by norm_num [ESGRating.fromScore], by norm_num [ESGRating.fromScore]⟩
  unfold ESGRating.fromScore
  refine ⟨?_, ?_, ?_, ?_, ?_, ?_, ?_, ?_, ?_, ?_⟩ <;>
    intros <;> split_ifs <;> first | rfl | linarith

/-- C3 witness: concrete instances of the band theorem. -/
theorem from_score_thresholds_witness :
    (85 : ℚ) ≤ 87 ∧ (87 : ℚ) < 90 ∧
    ESGRating.fromScore 87 = ESGRating.AA ∧
    (12 : ℚ) < 20 ∧ ESGRating.fromScore 12 = ESGRating.D :=
  ⟨by norm_num, by norm_num,
    (from_score_thresholds.1 87).2.1 (by norm_num) (by norm_num),
    by norm_num,
    ((from_score_thresholds.1 12).2.2.2.2.2.2.2.2.2 (by norm_num))⟩

/-- C6: `is_effective` is true iff `effective_from ≤ at_time` and
(`effective_until` absent or `at_time ≤ effective_until`), both bounds
inclusive; an absent `at_time` defaults to the current time; and a rule
effective from now−10d until now+10d is effective at now but not at
now±20d. -/
theorem is_effective_spec :
    (∀ (r : ComplianceRule) (now t : Int),
      r.isEffective now (some t) = true ↔
        (r.effective_from ≤ t ∧
          (r.effective_until = none ∨
            ∃ u, r.effective_until = some u ∧ t ≤ u))) ∧
    (∀ (r : ComplianceRule) (now : Int),
      r.isEffective now none = r.isEffective now (some now)) ∧
    (∀ (now day : Int) (r : ComplianceRule), 0 < day →
      r.effective_from = now - 10 * day →
      r.effective_until = some (now + 10 * day) →
      r.isEffective now (some now) = true ∧
      r.isEffective now (some (now - 20 * day)) = false ∧
      r.isEffective now (some (now + 20 * day)) = false) := by
  refine ⟨fun r now t => ?_, fun r now => rfl, fun now day r hd hfrom huntil => ?_⟩
  · unfold ComplianceRule.isEffective
    rcases r.effective_until with _ | u
    · simp [Option.getD]
    · simp [Option.getD]
  · unfold ComplianceRule.isEffective
    rw [hfrom, huntil]
    refine ⟨?_, ?_, ?_⟩ <;> simp [Option.getD] <;> omega

/-- C6 witness: a concrete rule effective from −10 until 10, queried at 0,
−20 and 20 (day length 1). -/
theorem is_effective_spec_witness :
    (0 : Int) < 1 ∧
    ComplianceRule.isEffective
      ⟨"r1", RegulatoryFramework.EU_SFDR, Jurisdiction.EU,
        RuleCategory.ESG_DISCLOSURE, Severity.LOW, "d", -10, some 10, none⟩
      0 (some 0) = true ∧
    ComplianceRule.isEffective
      ⟨"r1", RegulatoryFramework.EU_SFDR, Jurisdiction.EU,
        RuleCategory.ESG_DISCLOSURE, Severity.LOW, "d", -10, some 10, none⟩
      0 (some (-20)) = false :=
  ⟨by norm_num,
    (is_effective_spec.2.2 0 1
      ⟨"r1", RegulatoryFramework.EU_SFDR, Jurisdiction.EU,
        RuleCategory.ESG_DISCLOSURE, Severity.LOW, "d", -10, some 10, none⟩
      (by norm_num) (by norm_num) (by norm_num)).1,
    (is_effective_spec.2.2 0 1
      ⟨"r1", RegulatoryFramework.EU_SFDR, Jurisdiction.EU,
        RuleCategory.ESG_DISCLOSURE, Severity.LOW, "d", -10, some 10, none⟩
      (by norm_num) (by norm_num) (by norm_num)).2.1⟩

/-- The flag loop computes, for each tracked status, whether some result in
the list has it. -/
theorem overallStatus_foldl (l : List ComplianceResult) :
    ∀ acc : Bool × Bool × Bool × Bool,
      l.foldl overallStatusStep acc =
        (acc.1 ||
          l.any (fun r => decide (r.status = ComplianceStatus.NON_COMPLIANT)),
         acc.2.1 ||
          l.any (fun r => decide (r.status = ComplianceStatus.PARTIALLY_COMPLIANT)),
         acc.2.2.1 ||
          l.any (fun r => decide (r.status = ComplianceStatus.COMPLIANT)),
         acc.2.2.2 ||
          l.any (fun r => decide (r.status = ComplianceStatus.PENDING))) := by
  induction l with
  | nil => intro acc; simp
  | cons r l ih =>
    intro acc
    rw [List.foldl_cons, ih]
    cases hs : r.status <;> simp [overallStatusStep, hs, Bool.or_assoc]

/-- A status-search `any` is true exactly when a result with that status is
in the list. -/
theorem any_status_iff (results : List ComplianceResult) (s : ComplianceStatus) :
    results.any (fun r => decide (r.status = s)) = true ↔
      ∃ r ∈ results, r.status = s := by
  simp [List.any_eq_true]

/-- The source reduction agrees with the spec-worded priority reduction. -/
theorem overallStatus_eq_spec (results : List ComplianceResult) :
    ComplianceValidator.overallStatus results = specOverallStatus results := by
  unfold ComplianceValidator.overallStatus specOverallStatus overallStatusFlags
  rw [overallStatus_foldl]
  by_cases h1 : ∃ r ∈ results, r.status = ComplianceStatus.NON_COMPLIANT <;>
    by_cases h2 : ∃ r ∈ results, r.status = ComplianceStatus.PENDING <;>
    by_cases h3 : ∃ r ∈ results, r.status = ComplianceStatus.PARTIALLY_COMPLIANT <;>
    by_cases h4 : ∃ r ∈ results, r.status = ComplianceStatus.COMPLIANT <;>
    simp [h1, h2, h3, h4, any_status_iff]

/-- The spec-worded priority reduction is invariant under permutation. -/
theorem specOverallStatus_perm (l l' : List ComplianceResult)
    (h : l.Perm l') : specOverallStatus l = specOverallStatus l' := by
  unfold specOverallStatus
  have hm : ∀ s : ComplianceStatus,
      (∃ r ∈ l, r.status = s) ↔ ∃ r ∈ l', r.status = s := by
    intro s
    constructor
    · rintro ⟨r, hr, hs⟩
      exact ⟨r, h.mem_iff.mp hr, hs⟩
    · rintro ⟨r, hr, hs⟩
      exact ⟨r, h.mem_iff.mpr hr, hs⟩
  simp only [hm]

/-- C2: `overall_status` reduces a result list by the fixed priority
non_compliant > pending > partially_compliant > compliant > not_applicable
(the spec-worded reduction `specOverallStatus`), and its value is invariant
under any permutation of the input list. -/
theorem overall_status_priority :
    (∀ results : List ComplianceResult,
      ComplianceValidator.overallStatus results = specOverallStatus results) ∧
    (∀ l l' : List ComplianceResult, l.Perm l' →
      ComplianceValidator.overallStatus l =
        ComplianceValidator.overallStatus l') :=
  ⟨overallStatus_eq_spec, fun l l' h => by
    rw [overallStatus_eq_spec, overallStatus_eq_spec,
      specOverallStatus_perm l l' h]⟩

/-- C2 witness: a compliant and a non-compliant result, in both orders. -/
theorem overall_status_priority_witness :
    ComplianceValidator.overallStatus
      [⟨"a", ComplianceStatus.COMPLIANT, "m"⟩,
       ⟨"b", ComplianceStatus.NON_COMPLIANT, "m"⟩] =
      specOverallStatus
        [⟨"a", ComplianceStatus.COMPLIANT, "m"⟩,
         ⟨"b", ComplianceStatus.NON_COMPLIANT, "m"⟩] ∧
    ComplianceValidator.overallStatus
      [⟨"a", ComplianceStatus.COMPLIANT, "m"⟩,
       ⟨"b", ComplianceStatus.NON_COMPLIANT, "m"⟩] =
      ComplianceValidator.overallStatus
        [⟨"b", ComplianceStatus.NON_COMPLIANT, "m"⟩,
         ⟨"a", ComplianceStatus.COMPLIANT, "m"⟩] :=
  ⟨overall_status_priority.1 _,
    overall_status_priority.2 _ _ (List.Perm.swap _ _ _)⟩

/-- C7: `esg_to_iso` classifies SFDR article 9 for AAA/AA/A, 8 for BBB/BB,
6 for the remaining five ratings; taxonomy alignment is `min e 100` for
e ≥ 80, `(e − 60) · 2` for 60 ≤ e < 80, and 0 for e < 60; the rating label
is copied; carbon intensity is `500 · (1 − e/100)`. -/
theorem esg_to_iso_spec :
    ∀ sc : ESGScore,
      ((sc.rating = ESGRating.AAA ∨ sc.rating = ESGRating.AA ∨
          sc.rating = ESGRating.A) →
        (ISO20022Bridge.esgToIso sc).sfdr_article = 9) ∧
      ((sc.rating = ESGRating.BBB ∨ sc.rating = ESGRating.BB) →
        (ISO20022Bridge.esgToIso sc).sfdr_article = 8) ∧
      ((sc.rating = ESGRating.B ∨ sc.rating = ESGRating.CCC ∨
          sc.rating = ESGRating.CC ∨ sc.rating = ESGRating.C ∨
          sc.rating = ESGRating.D) →
        (ISO20022Bridge.esgToIso sc).sfdr_article = 6) ∧
      (80 ≤ sc.environmental →
        (ISO20022Bridge.esgToIso sc).taxonomy_alignment =
          min sc.environmental 100) ∧
      (60 ≤ sc.environmental → sc.environmental < 80 →
        (ISO20022Bridge.esgToIso sc).taxonomy_alignment =
          (sc.environmental - 60) * 2) ∧
      (sc.environmental < 60 →
        (ISO20022Bridge.esgToIso sc).taxonomy_alignment = 0) ∧
      (ISO20022Bridge.esgToIso sc).erc8040_rating = sc.rating.value ∧
      (ISO20022Bridge.esgToIso sc).carbon_intensity =
        some (500 * (1 - sc.environmental / 100)) := by
  intro sc
  refine ⟨?_, ?_, ?_, ?_, ?_, ?_, rfl, rfl⟩
  · rintro (h | h | h) <;>
      simp [ISO20022Bridge.esgToIso, ISO20022Bridge.mapSfdrArticle, h]
  · rintro (h | h) <;>
      simp [ISO20022Bridge.esgToIso, ISO20022Bridge.mapSfdrArticle, h]
  · rintro (h | h | h | h | h) <;>
      simp [ISO20022Bridge.esgToIso, ISO20022Bridge.mapSfdrArticle, h]
  · intro h
    unfold ISO20022Bridge.esgToIso ISO20022Bridge.calculateTaxonomyAlignment
    dsimp only
    rw [if_pos h]
  · intro h1 h2
    unfold ISO20022Bridge.esgToIso ISO20022Bridge.calculateTaxonomyAlignment
    dsimp only
    split_ifs <;> first | rfl | linarith
  · intro h
    unfold ISO20022Bridge.esgToIso ISO20022Bridge.calculateTaxonomyAlignment
    dsimp only
    split_ifs <;> first | rfl | linarith

/-- C7 witness: concrete classifications for a 92-environmental AAA score
and a 50-environmental B score. -/
theorem esg_to_iso_spec_witness :
    (ISO20022Bridge.esgToIso ⟨92, 50, 50, 75, ESGRating.AAA⟩).sfdr_article =
      9 ∧
    (ISO20022Bridge.esgToIso ⟨92, 50, 50, 75, ESGRating.AAA⟩).taxonomy_alignment =
      min 92 100 ∧
    (ISO20022Bridge.esgToIso ⟨50, 50, 50, 50, ESGRating.B⟩).taxonomy_alignment =
      0 ∧
    (ISO20022Bridge.esgToIso ⟨50, 50, 50, 50, ESGRating.B⟩).sfdr_article = 6 :=
  ⟨(esg_to_iso_spec ⟨92, 50, 50, 75, ESGRating.AAA⟩).1 (Or.inl rfl),
    (esg_to_iso_spec ⟨92, 50, 50, 75, ESGRating.AAA⟩).2.2.2.1 (by norm_num),
    (esg_to_iso_spec ⟨50, 50, 50, 50, ESGRating.B⟩).2.2.2.2.2.1 (by norm_num),
    (esg_to_iso_spec ⟨50, 50, 50, 50, ESGRating.B⟩).2.2.1 (Or.inl rfl)⟩

/-- C4 counterexample: the public pydantic constructor accepts total 0 with
rating AAA, a constructible ESGScore whose rating disagrees with
`from_score(total)` (= D). -/
theorem esgscore_invariant_cex :
    ESGScore.mk? 0 0 0 0 ESGRating.AAA =
      some ⟨0, 0, 0, 0, ESGRating.AAA⟩ ∧
    ESGRating.AAA ≠ ESGRating.fromScore 0 := by
  constructor
  · norm_num [ESGScore.mk?, fieldInRange]
  · have hD : ESGRating.fromScore 0 = ESGRating.D := by
      norm_num [ESGRating.fromScore]
    rw [hD]
    decide

/-- C4 (amended): every ESGScore built by `ESGScore.create` from components
in [0,100] has all fields in [0,100], total the arithmetic mean of the
components, and rating equal to `from_score(total)`; and any value the raw
constructor yields has all numeric fields in [0,100] (that constructor
checks only these range bounds). -/
theorem esgscore_create_invariant :
    (∀ e s g : ℚ, 0 ≤ e → e ≤ 100 → 0 ≤ s → s ≤ 100 → 0 ≤ g → g ≤ 100 →
      ∃ sc : ESGScore, ESGScore.create e s g = some sc ∧
        sc.environmental = e ∧ sc.social = s ∧ sc.governance = g ∧
        sc.total = (e + s + g) / 3 ∧ 0 ≤ sc.total ∧ sc.total ≤ 100 ∧
        sc.rating = ESGRating.fromScore sc.total) ∧
    (∀ (e s g t : ℚ) (r : ESGRating) (sc : ESGScore),
      ESGScore.mk? e s g t r = some sc →
        0 ≤ sc.environmental ∧ sc.environmental ≤ 100 ∧
        0 ≤ sc.social ∧ sc.social ≤ 100 ∧
        0 ≤ sc.governance ∧ sc.governance ≤ 100 ∧
        0 ≤ sc.total ∧ sc.total ≤ 100) := by
  constructor
  · intro e s g he1 he2 hs1 hs2 hg1 hg2
    have ht1 : 0 ≤ (e + s + g) / 3 := by linarith
    have ht2 : (e + s + g) / 3 ≤ 100 := by linarith
    refine ⟨⟨e, s, g, (e + s + g) / 3,
      ESGRating.fromScore ((e + s + g) / 3)⟩, ?_, rfl, rfl, rfl, rfl,
      ht1, ht2, rfl⟩
    unfold ESGScore.create ESGScore.mk? fieldInRange
    simp [he1, he2, hs1, hs2, hg1, hg2, ht1, ht2]
  · intro e s g t r sc h
    unfold ESGScore.mk? fieldInRange at h
    split_ifs at h with hc
    simp only [Bool.and_eq_true, decide_eq_true_eq] at hc
    obtain ⟨⟨⟨⟨he1, he2⟩, hs1, hs2⟩, hg1, hg2⟩, ht1, ht2⟩ := hc
    obtain rfl : (⟨e, s, g, t, r⟩ : ESGScore) = sc := Option.some.inj h
    exact ⟨he1, he2, hs1, hs2, hg1, hg2, ht1, ht2⟩

/-- C4 witness: the create-path invariant at (90, 85, 80). -/
theorem esgscore_create_invariant_witness :
    ∃ sc : ESGScore, ESGScore.create 90 85 80 = some sc ∧
      sc.environmental = 90 ∧ sc.social = 85 ∧ sc.governance = 80 ∧
      sc.total = (90 + 85 + 80) / 3 ∧ 0 ≤ sc.total ∧ sc.total ≤ 100 ∧
      sc.rating = ESGRating.fromScore sc.total :=
  esgscore_create_invariant.1 90 85 80 (by norm_num) (by norm_num)
    (by norm_num) (by norm_num) (by norm_num) (by norm_num)

/-- C5 counterexample: weights (2, −1, 0) have positive sum 1 and inputs
(100, 0, 0) lie in [0,100], yet `calculate` produces no ESGScore: its
weight-dot-product total is 200 and the ESGScore constructor rejects it. -/
theorem esgscoring_calculate_cex :
    (0 : ℚ) < 2 + (-1) + 0 ∧
    ESGScoring.init? 2 (-1) 0 = some ⟨2, -1, 0⟩ ∧
    ESGScoring.calculate ⟨2, -1, 0⟩ 100 0 0 = none := by
  refine ⟨by norm_num, ?_, ?_⟩
  · norm_num [ESGScoring.init?]
  · norm_num [ESGScoring.calculate, ESGScore.mk?, fieldInRange]

/-- C5 (amended): for nonnegative weights with positive sum and inputs in
[0,100], the constructor stores the weights divided by their sum and
`calculate` returns an ESGScore whose total is the normalized-weight dot
product and whose rating is `from_score(total)`; in particular
ESGScoring(2,1,1).calculate(80,60,60) has total exactly 70. -/
theorem esgscoring_calculate_amended :
    (∀ we ws wg e s g : ℚ, 0 ≤ we → 0 ≤ ws → 0 ≤ wg → 0 < we + ws + wg →
      0 ≤ e → e ≤ 100 → 0 ≤ s → s ≤ 100 → 0 ≤ g → g ≤ 100 →
      ∃ w : ESGScoring, ESGScoring.init? we ws wg = some w ∧
        w.environmental_weight = we / (we + ws + wg) ∧
        w.social_weight = ws / (we + ws + wg) ∧
        w.governance_weight = wg / (we + ws + wg) ∧
        ∃ sc : ESGScore, w.calculate e s g = some sc ∧
          sc.total = e * (we / (we + ws + wg)) + s * (ws / (we + ws + wg)) +
            g * (wg / (we + ws + wg)) ∧
          sc.rating = ESGRating.fromScore sc.total) ∧
    (∃ (w : ESGScoring) (sc : ESGScore),
      ESGScoring.init? 2 1 1 = some w ∧ w.calculate 80 60 60 = some sc ∧
      sc.total = 70) := by
  constructor
  · intro we ws wg e s g hwe hws hwg hT he1 he2 hs1 hs2 hg1 hg2
    have hTne : we + ws + wg ≠ 0 := ne_of_gt hT
    refine ⟨⟨we / (we + ws + wg), ws / (we + ws + wg),
      wg / (we + ws + wg)⟩, ?_, rfl, rfl, rfl, ?_⟩
    · unfold ESGScoring.init?
      simp [hTne]
    · have ha : 0 ≤ we / (we + ws + wg) := div_nonneg hwe (le_of_lt hT)
      have hb : 0 ≤ ws / (we + ws + wg) := div_nonneg hws (le_of_lt hT)
      have hc : 0 ≤ wg / (we + ws + wg) := div_nonneg hwg (le_of_lt hT)
      have hsum : we / (we + ws + wg) + ws / (we + ws + wg) +
          wg / (we + ws + wg) = 1 := by
        field_simp
      have hm1 := mul_nonneg he1 ha
      have hm2 := mul_nonneg hs1 hb
      have hm3 := mul_nonneg hg1 hc
      have h0 : 0 ≤ e * (we / (we + ws + wg)) + s * (ws / (we + ws + wg)) +
          g * (wg / (we + ws + wg)) := by
        linarith
      have hu1 := mul_le_mul_of_nonneg_right he2 ha
      have hu2 := mul_le_mul_of_nonneg_right hs2 hb
      have hu3 := mul_le_mul_of_nonneg_right hg2 hc
      have h100 : e * (we / (we + ws + wg)) + s * (ws / (we + ws + wg)) +
          g * (wg / (we + ws + wg)) ≤ 100 := by
        linarith
      refine ⟨⟨e, s, g,
        e * (we / (we + ws + wg)) + s * (ws / (we + ws + wg)) +
          g * (wg / (we + ws + wg)),
        ESGRating.fromScore (e * (we / (we + ws + wg)) +
          s * (ws / (we + ws + wg)) + g * (wg / (we + ws + wg)))⟩,
        ?_, rfl, rfl⟩
      unfold ESGScoring.calculate ESGScore.mk? fieldInRange
      simp [he1, he2, hs1, hs2, hg1, hg2, h0, h100]
  · refine ⟨⟨1/2, 1/4, 1/4⟩, ⟨80, 60, 60, 70, ESGRating.BBB⟩, ?_, ?_, rfl⟩
    · norm_num [ESGScoring.init?]
    · norm_num [ESGScoring.calculate, ESGScore.mk?, fieldInRange,
        ESGRating.fromScore]

/-- C5 witness: equal weights (1,1,1) and inputs (90,90,90). -/
theorem esgscoring_calculate_amended_witness :
    ∃ w : ESGScoring, ESGScoring.init? 1 1 1 = some w ∧
      w.environmental_weight = 1 / (1 + 1 + 1) ∧
      w.social_weight = 1 / (1 + 1 + 1) ∧
      w.governance_weight = 1 / (1 + 1 + 1) ∧
      ∃ sc : ESGScore, w.calculate 90 90 90 = some sc ∧
        sc.total = 90 * (1 / (1 + 1 + 1)) + 90 * (1 / (1 + 1 + 1)) +
          90 * (1 / (1 + 1 + 1)) ∧
        sc.rating = ESGRating.fromScore sc.total :=
  esgscoring_calculate_amended.1 1 1 1 90 90 90 (by norm_num) (by norm_num)
    (by norm_num) (by norm_num) (by norm_num) (by norm_num) (by norm_num)
    (by norm_num) (by norm_num) (by norm_num)

/-- C9: the code at the claim's failing inputs: degenerate weights with
negative sum (−1,−1,−1) are accepted by the ESGScoring constructor (no
validation error is raised; the weights are silently normalized by the
negative sum to 1/3 each), while the ESGScore constructor does reject an
out-of-range component. -/
theorem esgscoring_no_weight_validation :
    ((-1 : ℚ) + (-1) + (-1) < 0 ∧
      ESGScoring.init? (-1) (-1) (-1) = some ⟨1/3, 1/3, 1/3⟩) ∧
    ESGScore.mk? 101 0 0 50 (ESGRating.fromScore 50) = none := by
  refine ⟨⟨by norm_num, ?_⟩, ?_⟩
  · norm_num [ESGScoring.init?]
  · norm_num [ESGScore.mk?, fieldInRange]

/-- On an explicit query time, the source effectiveness check agrees with
the spec-worded one. -/
theorem isEffective_some (rule : ComplianceRule) (now t : Int) :
    rule.isEffective now (some t) = specEffective rule t := by
  unfold ComplianceRule.isEffective specEffective
  rcases rule.effective_until with _ | u
  · rw [Bool.eq_iff_iff]
    simp [Option.getD]
  · rw [Bool.eq_iff_iff]
    simp [Option.getD]

/-- The per-rule loop body of `validate_esg` agrees with the spec-worded
per-rule classification. -/
theorem evalRule_eq_spec (esg_score : ESGScore) (jurisdiction : Jurisdiction)
    (framework : RegulatoryFramework) (category : RuleCategory)
    (now t : Int) (rule : ComplianceRule) :
    evalRule esg_score jurisdiction framework category now t rule =
      specClassifyRule esg_score jurisdiction framework category t rule := by
  unfold evalRule specClassifyRule
  rw [isEffective_some]
  by_cases h1 : specEffective rule t = false
  · rw [if_pos h1, if_pos h1]
  · rw [if_neg h1, if_neg h1]
    have happ : (rule.appliesTo jurisdiction = false ∨
        rule.framework ≠ framework ∨ rule.category ≠ category) ↔
        (¬ (rule.jurisdiction = jurisdiction ∨
          rule.jurisdiction = Jurisdiction.GLOBAL) ∨
         rule.framework ≠ framework ∨ rule.category ≠ category) := by
      unfold ComplianceRule.appliesTo
      simp [decide_eq_false_iff_not]
    by_cases h2 : rule.appliesTo jurisdiction = false ∨
        rule.framework ≠ framework ∨ rule.category ≠ category
    · rw [if_pos h2, if_pos (happ.mp h2)]
    · rw [if_neg h2, if_neg (fun hx => h2 (happ.mpr hx))]
      rcases hreq : rule.required_esg_rating with _ | req
      · rfl
      · dsimp only
        rcases hl : ESGRating.fromLabel req with _ | rr
        · rfl
        · dsimp only
          have hord : (esg_score.rating.sourceIndex ≥ rr.sourceIndex) ↔
              (rr.ordinal ≤ esg_score.rating.ordinal) := by
            rw [sourceIndex_eq_ordinal, sourceIndex_eq_ordinal]
          by_cases h3 : rr.ordinal ≤ esg_score.rating.ordinal
          · rw [if_pos (hord.mpr h3), if_pos h3]
          · rw [if_neg (fun hx => h3 (hord.mp hx)), if_neg h3]

/-- C1: `validate_esg` returns exactly one result per rule, in rule order,
each rule classified independently by the spec-worded decision chain
(`specClassifyRule`): not effective → not_applicable "Rule not currently
effective"; filter failure (jurisdiction equal-or-GLOBAL, framework,
category) → not_applicable "Rule not applicable for given filters"; no
required rating → not_applicable "No ESG rating requirement"; unparseable
required rating → non_compliant "Invalid required ESG rating"; otherwise
compliant iff the score's ordinal (D=0 … AAA=9) is ≥ the requirement's. -/
theorem validate_esg_per_rule :
    ∀ (v : ComplianceValidator) (esg_score : ESGScore)
      (jurisdiction : Jurisdiction) (framework : RegulatoryFramework)
      (category : RuleCategory) (now : Int) (at_time : Option Int),
      v.validateEsg esg_score jurisdiction framework category now at_time =
        v.rules.map (specClassifyRule esg_score jurisdiction framework
          category (at_time.getD now)) ∧
      (v.validateEsg esg_score jurisdiction framework category now
        at_time).length = v.rules.length := by
  intro v esg_score jurisdiction framework category now at_time
  have hmap : v.validateEsg esg_score jurisdiction framework category now
      at_time = v.rules.map (specClassifyRule esg_score jurisdiction
        framework category (at_time.getD now)) := by
    unfold ComplianceValidator.validateEsg
    dsimp only
    rw [funext (evalRule_eq_spec esg_score jurisdiction framework category
      now (at_time.getD now))]
  exact ⟨hmap, by rw [hmap, List.length_map]⟩

/-- Every result of the per-rule loop body carries one of the three
statuses compliant, non_compliant, not_applicable. -/
theorem evalRule_status (esg_score : ESGScore) (jurisdiction : Jurisdiction)
    (framework : RegulatoryFramework) (category : RuleCategory)
    (now t : Int) (rule : ComplianceRule) :
    (evalRule esg_score jurisdiction framework category now t rule).status =
        ComplianceStatus.COMPLIANT ∨
      (evalRule esg_score jurisdiction framework category now t rule).status =
        ComplianceStatus.NON_COMPLIANT ∨
      (evalRule esg_score jurisdiction framework category now t rule).status =
        ComplianceStatus.NOT_APPLICABLE := by
  unfold evalRule
  by_cases h1 : rule.isEffective now (some t) = false
  · simp [h1]
  · rw [if_neg h1]
    by_cases h2 : rule.appliesTo jurisdiction = false ∨
        rule.framework ≠ framework ∨ rule.category ≠ category
    · simp [h2]
    · rw [if_neg h2]
      rcases hreq : rule.required_esg_rating with _ | req
      · simp
      · dsimp only
        rcases hl : ESGRating.fromLabel req with _ | rr
        · simp
        · dsimp only
          by_cases h3 : esg_score.rating.sourceIndex ≥ rr.sourceIndex
          · simp [h3]
          · simp [h3]

/-- A result list without pending or partially_compliant members never
reduces to those two statuses. -/
theorem overallStatus_no_flag (l : List ComplianceResult)
    (hp : ∀ r ∈ l, r.status ≠ ComplianceStatus.PENDING)
    (hpc : ∀ r ∈ l, r.status ≠ ComplianceStatus.PARTIALLY_COMPLIANT) :
    ComplianceValidator.overallStatus l ≠ ComplianceStatus.PENDING ∧
    ComplianceValidator.overallStatus l ≠
      ComplianceStatus.PARTIALLY_COMPLIANT := by
  rw [overallStatus_eq_spec]
  unfold specOverallStatus
  have h2 : ¬ ∃ r ∈ l, r.status = ComplianceStatus.PENDING := by
    rintro ⟨r, hr, hs⟩
    exact hp r hr hs
  have h3 : ¬ ∃ r ∈ l, r.status = ComplianceStatus.PARTIALLY_COMPLIANT := by
    rintro ⟨r, hr, hs⟩
    exact hpc r hr hs
  by_cases h1 : ∃ r ∈ l, r.status = ComplianceStatus.NON_COMPLIANT <;>
    by_cases h4 : ∃ r ∈ l, r.status = ComplianceStatus.COMPLIANT <;>
    simp [h1, h2, h3, h4]

/-- C10: every result of `validate_esg` has status compliant, non_compliant
or not_applicable; consequently `overall_status` of its output is never
pending and never partially_compliant (those branches are unreachable for
validator output). -/
theorem validate_esg_status_range :
    ∀ (v : ComplianceValidator) (esg_score : ESGScore)
      (jurisdiction : Jurisdiction) (framework : RegulatoryFramework)
      (category : RuleCategory) (now : Int) (at_time : Option Int),
      (∀ res ∈ v.validateEsg esg_score jurisdiction framework category now
          at_time,
        res.status = ComplianceStatus.COMPLIANT ∨
        res.status = ComplianceStatus.NON_COMPLIANT ∨
        res.status = ComplianceStatus.NOT_APPLICABLE) ∧
      ComplianceValidator.overallStatus
        (v.validateEsg esg_score jurisdiction framework category now
          at_time) ≠ ComplianceStatus.PENDING ∧
      ComplianceValidator.overallStatus
        (v.validateEsg esg_score jurisdiction framework category now
          at_time) ≠ ComplianceStatus.PARTIALLY_COMPLIANT := by
  intro v esg_score jurisdiction framework category now at_time
  have hm : ∀ res ∈ v.validateEsg esg_score jurisdiction framework category
      now at_time,
      res.status = ComplianceStatus.COMPLIANT ∨
      res.status = ComplianceStatus.NON_COMPLIANT ∨
      res.status = ComplianceStatus.NOT_APPLICABLE := by
    intro res hres
    unfold ComplianceValidator.validateEsg at hres
    rw [List.mem_map] at hres
    obtain ⟨rule, hrule, rfl⟩ := hres
    exact evalRule_status esg_score jurisdiction framework category now
      (at_time.getD now) rule
  refine ⟨hm, ?_⟩
  have hp : ∀ r ∈ v.validateEsg esg_score jurisdiction framework category
      now at_time, r.status ≠ ComplianceStatus.PENDING := by
    intro r hr
    rcases hm r hr with h | h | h <;> simp [h]
  have hpc : ∀ r ∈ v.validateEsg esg_score jurisdiction framework category
      now at_time, r.status ≠ ComplianceStatus.PARTIALLY_COMPLIANT := by
    intro r hr
    rcases hm r hr with h | h | h <;> simp [h]
  exact overallStatus_no_flag _ hp hpc

/-- C10 witness: a one-rule validator whose single output is compliant, and
whose overall status is not pending. -/
theorem validate_esg_status_range_witness :
    (⟨"r1", ComplianceStatus.COMPLIANT,
        "ESG rating AA meets requirement"⟩ : ComplianceResult) ∈
      ComplianceValidator.validateEsg
        ⟨[⟨"r1", RegulatoryFramework.EU_SFDR, Jurisdiction.EU,
          RuleCategory.ESG_DISCLOSURE, Severity.HIGH, "desc", 0, none,
          some ("BBB")⟩]⟩
        ⟨90, 85, 80, 85, ESGRating.AA⟩ Jurisdiction.EU
        RegulatoryFramework.EU_SFDR RuleCategory.ESG_DISCLOSURE 5 none ∧
    ((⟨"r1", ComplianceStatus.COMPLIANT,
        "ESG rating AA meets requirement"⟩ : ComplianceResult).status =
        ComplianceStatus.COMPLIANT ∨
      (⟨"r1", ComplianceStatus.COMPLIANT,
        "ESG rating AA meets requirement"⟩ : ComplianceResult).status =
        ComplianceStatus.NON_COMPLIANT ∨
      (⟨"r1", ComplianceStatus.COMPLIANT,
        "ESG rating AA meets requirement"⟩ : ComplianceResult).status =
        ComplianceStatus.NOT_APPLICABLE) ∧
    ComplianceValidator.overallStatus
      (ComplianceValidator.validateEsg
        ⟨[⟨"r1", RegulatoryFramework.EU_SFDR, Jurisdiction.EU,
          RuleCategory.ESG_DISCLOSURE, Severity.HIGH, "desc", 0, none,
          some ("BBB")⟩]⟩
        ⟨90, 85, 80, 85, ESGRating.AA⟩ Jurisdiction.EU
        RegulatoryFramework.EU_SFDR RuleCategory.ESG_DISCLOSURE 5 none) ≠
      ComplianceStatus.PENDING := by
  have hmem : (⟨"r1", ComplianceStatus.COMPLIANT,
      "ESG rating AA meets requirement"⟩ : ComplianceResult) ∈
      ComplianceValidator.validateEsg
        ⟨[⟨"r1", RegulatoryFramework.EU_SFDR, Jurisdiction.EU,
          RuleCategory.ESG_DISCLOSURE, Severity.HIGH, "desc", 0, none,
          some ("BBB")⟩]⟩
        ⟨90, 85, 80, 85, ESGRating.AA⟩ Jurisdiction.EU
        RegulatoryFramework.EU_SFDR RuleCategory.ESG_DISCLOSURE 5 none := by
    rw [show ComplianceValidator.validateEsg
        ⟨[⟨"r1", RegulatoryFramework.EU_SFDR, Jurisdiction.EU,
          RuleCategory.ESG_DISCLOSURE, Severity.HIGH, "desc", 0, none,
          some ("BBB")⟩]⟩
        ⟨90, 85, 80, 85, ESGRating.AA⟩ Jurisdiction.EU
        RegulatoryFramework.EU_SFDR RuleCategory.ESG_DISCLOSURE 5 none =
      [⟨"r1", ComplianceStatus.COMPLIANT,
        "ESG rating AA meets requirement"⟩] from rfl]
    exact List.mem_singleton.mpr rfl
  exact ⟨hmem,
    (validate_esg_status_range
      ⟨[⟨"r1", RegulatoryFramework.EU_SFDR, Jurisdiction.EU,
        RuleCategory.ESG_DISCLOSURE, Severity.HIGH, "desc", 0, none,
        some ("BBB")⟩]⟩
      ⟨90, 85, 80, 85, ESGRating.AA⟩ Jurisdiction.EU
      RegulatoryFramework.EU_SFDR RuleCategory.ESG_DISCLOSURE 5 none).1 _
      hmem,
    (validate_esg_status_range
      ⟨[⟨"r1", RegulatoryFramework.EU_SFDR, Jurisdiction.EU,
        RuleCategory.ESG_DISCLOSURE, Severity.HIGH, "desc", 0, none,
        some ("BBB")⟩]⟩
      ⟨90, 85, 80, 85, ESGRating.AA⟩ Jurisdiction.EU
      RegulatoryFramework.EU_SFDR RuleCategory.ESG_DISCLOSURE 5 none).2.1⟩

/-- Unfolding step of `String.intercalate` on a nonempty tail. -/
theorem intercalate_go_cons (acc s a : String) (l : List String) :
    String.intercalate.go acc s (a :: l) =
      String.intercalate.go (acc ++ s ++ a) s l := rfl

/-- Base case of `String.intercalate`'s accumulator loop. -/
theorem intercalate_go_nil (acc s : String) :
    String.intercalate.go acc s [] = acc := rfl

set_option maxRecDepth 10000 in
/-- C8: `create_setr_message` is the fixed SETR skeleton — Document root
with the setr.010.001.04 identifier, SctiesTradConf > FinInstrmId with
ISIN/LEI/Nm then ESGClssfctn with TaxnmyAlgnmt/SFDRArtcl/ERC8040Rtg, in
that order, joined by newlines with raw unescaped text substitution — and
for the documented fixture inputs the output contains the literal
substrings `<ISIN>US46434G1031</ISIN>` and `<SFDRArtcl>9</SFDRArtcl>`. -/
theorem create_setr_message_spec :
    (∀ (instrument : FinancialInstrument) (esg : ESGClassification),
      ISO20022Bridge.createSetrMessage instrument esg =
        "<?xml version=\"1.0\" encoding=\"UTF-8\"?>" ++ "\n" ++
        "<Document xmlns=\"urn:iso:std:iso:20022:tech:xsd:setr.010.001.04\">" ++
          "\n" ++
        "  <SctiesTradConf>" ++ "\n" ++
        "    <FinInstrmId>" ++ "\n" ++
        "      <ISIN>" ++ instrument.isin ++ "</ISIN>" ++ "\n" ++
        "      <LEI>" ++ instrument.lei ++ "</LEI>" ++ "\n" ++
        "      <Nm>" ++ instrument.name ++ "</Nm>" ++ "\n" ++
        "    </FinInstrmId>" ++ "\n" ++
        "    <ESGClssfctn>" ++ "\n" ++
        "      <TaxnmyAlgnmt>" ++ toString esg.taxonomy_alignment ++
          "</TaxnmyAlgnmt>" ++ "\n" ++
        "      <SFDRArtcl>" ++ toString esg.sfdr_article ++ "</SFDRArtcl>" ++
          "\n" ++
        "      <ERC8040Rtg>" ++ esg.erc8040_rating ++ "</ERC8040Rtg>" ++
          "\n" ++
        "    </ESGClssfctn>" ++ "\n" ++
        "  </SctiesTradConf>" ++ "\n" ++
        "</Document>") ∧
    (∃ pre post : String,
      ISO20022Bridge.createSetrMessage
        ⟨"US46434G1031", "549300PZDW6EBUUJ8G35", "ERC8040 Green Bond"⟩
        ⟨92, 9, "AA", some 40⟩ =
        pre ++ "<ISIN>US46434G1031</ISIN>" ++ post) ∧
    (∃ pre post : String,
      ISO20022Bridge.createSetrMessage
        ⟨"US46434G1031", "549300PZDW6EBUUJ8G35", "ERC8040 Green Bond"⟩
        ⟨92, 9, "AA", some 40⟩ =
        pre ++ "<SFDRArtcl>9</SFDRArtcl>" ++ post) := by
  refine ⟨fun instrument esg => ?_,
    ⟨"<?xml version=\"1.0\" encoding=\"UTF-8\"?>\n<Document xmlns=\"urn:iso:std:iso:20022:tech:xsd:setr.010.001.04\">\n  <SctiesTradConf>\n    <FinInstrmId>\n      ",
     "\n      <LEI>549300PZDW6EBUUJ8G35</LEI>\n      <Nm>ERC8040 Green Bond</Nm>\n    </FinInstrmId>\n    <ESGClssfctn>\n      <TaxnmyAlgnmt>92</TaxnmyAlgnmt>\n      <SFDRArtcl>9</SFDRArtcl>\n      <ERC8040Rtg>AA</ERC8040Rtg>\n    </ESGClssfctn>\n  </SctiesTradConf>\n</Document>",
     by rfl⟩,
    ⟨"<?xml version=\"1.0\" encoding=\"UTF-8\"?>\n<Document xmlns=\"urn:iso:std:iso:20022:tech:xsd:setr.010.001.04\">\n  <SctiesTradConf>\n    <FinInstrmId>\n      <ISIN>US46434G1031</ISIN>\n      <LEI>549300PZDW6EBUUJ8G35</LEI>\n      <Nm>ERC8040 Green Bond</Nm>\n    </FinInstrmId>\n    <ESGClssfctn>\n      <TaxnmyAlgnmt>92</TaxnmyAlgnmt>\n      ",
     "\n      <ERC8040Rtg>AA</ERC8040Rtg>\n    </ESGClssfctn>\n  </SctiesTradConf>\n</Document>",
     by rfl⟩⟩
  unfold ISO20022Bridge.createSetrMessage
  dsimp only
  simp only [String.intercalate, intercalate_go_cons, intercalate_go_nil,
    String.append_assoc]

end Erc8040
